import Mathlib

/-
Verification development for the gmail_autoresponder repository.

Shallow embedding of the Python modules:
  app/gmail_service.py  (_b64decode_url, strip_quotes, build_mime)
  app/llm_service.py    (LLMService.draft_reply)
  app/draft_repo.py     (DraftRepository.save_draft / update_draft_status)
  app/scheduler.py      (SchedulerService.poll_inbox)

Conventions of the embedding:
  * Python `str` is Lean `String`; Python whitespace predicates (`str.strip`,
    regex `\s`) and `str.lower` are modelled over ASCII (the inputs used by
    the theorems are ASCII); `str.startswith` / `str.lower` get character-
    list models (`pyStartswith` / `pyLower`) so that every definition
    evaluates inside the kernel.
  * External network calls (Gmail API, OpenAI) are modelled as oracles: the
    outcome each call would have is part of the input (`Except err val`).
  * Raised exceptions become `Except.error`; `try/except` becomes a `match`.
  * `datetime.now()` is an explicit `now : Nat` argument.
  * SQLite tables are explicit lists of records; `AUTOINCREMENT` is a
    `nextId` counter; `cursor.rowcount > 0` is an existence check.
  * The two unbounded `while`-style loops (the part-tree scan and the UTF-8
    byte scan) take an explicit iteration bound ("fuel") that the wrapper
    sets to a value proven sufficient; every other recursion is structural.
-/

set_option linter.unusedVariables false

namespace GmailAutoresponder

/-! ### Python string primitives -/

/-- ASCII whitespace, the characters `str.strip()` / regex `\s` treat as
whitespace for ASCII input (space, tab, LF, CR, VT, FF). -/
def pyIsSpace (c : Char) : Bool :=
  c = ' ' || c = '\t' || c = '\n' || c = '\r' || c.toNat = 11 || c.toNat = 12

/-- Python `str.rstrip()` (whitespace variant). -/
def pyRstrip (s : String) : String :=
  String.mk (s.data.reverse.dropWhile pyIsSpace).reverse

/-- Python `str.strip()` (whitespace variant). -/
def pyStrip (s : String) : String :=
  String.mk (((s.data.dropWhile pyIsSpace).reverse.dropWhile pyIsSpace).reverse)

/-- ASCII lower-casing of one character (model of `str.lower`). -/
def pyCharLower (c : Char) : Char :=
  if 'A' ≤ c ∧ c ≤ 'Z' then Char.ofNat (c.toNat + 32) else c

/-- Python `str.lower()` (ASCII model). -/
def pyLower (s : String) : String := String.mk (s.data.map pyCharLower)

/-- Boolean prefix test on character lists. -/
def isPrefixChars : List Char → List Char → Bool
  | [], _ => true
  | _ :: _, [] => false
  | a :: as, b :: bs => a = b && isPrefixChars as bs

/-- Python `s.startswith(pre)`. -/
def pyStartswith (s pre : String) : Bool := isPrefixChars pre.data s.data

/-- Boolean substring test on character lists (`needle` occurs in the list). -/
def containsChars (needle : List Char) : List Char → Bool
  | [] => isPrefixChars needle []
  | c :: rest => isPrefixChars needle (c :: rest) || containsChars needle rest

/-- Helper for `pySplitlines`: split a character list at line breaks
(`\n`, `\r`, `\r\n`), accumulating the current line in `acc` (reversed). -/
def splitLinesAux (acc : List Char) : List Char → List String
  | [] => [String.mk acc.reverse]
  | '\r' :: '\n' :: rest =>
      String.mk acc.reverse :: (if rest = [] then [] else splitLinesAux [] rest)
  | '\n' :: rest =>
      String.mk acc.reverse :: (if rest = [] then [] else splitLinesAux [] rest)
  | '\r' :: rest =>
      String.mk acc.reverse :: (if rest = [] then [] else splitLinesAux [] rest)
  | c :: rest => splitLinesAux (c :: acc) rest

/-- Python `str.splitlines()` restricted to the `\n`, `\r`, `\r\n` breaks
(the only ones the repository's data can contain). An empty string gives
`[]`; a trailing line break does not produce a trailing empty line. -/
def pySplitlines (s : String) : List String :=
  if s = "" then [] else splitLinesAux [] s.data

/-- Concatenation of a list of strings (no separator). -/
def strConcat : List String → String
  | [] => ""
  | s :: rest => s ++ strConcat rest

/-- Python `"\n".join(lines)`. -/
def joinNL : List String → String
  | [] => ""
  | [s] => s
  | s :: rest => s ++ "\n" ++ joinNL rest

/-! ### `_b64decode_url` (gmail_service.py lines 42-50)

`base64.urlsafe_b64decode` translates `-`→`+` and `_`→`/` and, with the
default `validate=False`, discards characters outside the base-64 alphabet
before checking padding; incorrect padding raises `binascii.Error`.  The
decoder below models that: non-alphabet characters are discarded, the
remainder must be data characters followed by at most two `=` with total
length a multiple of four, otherwise the parse fails (`none`, the model of
the raised exception that the source's `try/except` turns into `""`).
`bytes.decode("utf-8", "ignore")` is `utf8DecodeIgnore`. -/

/-- Six-bit value of a base-64 character, after the url-safe translation
`-`→`+`, `_`→`/`. `none` for characters outside the alphabet. -/
def b64Val? (c : Char) : Option Nat :=
  if 'A' ≤ c ∧ c ≤ 'Z' then some (c.toNat - 65)
  else if 'a' ≤ c ∧ c ≤ 'z' then some (c.toNat - 71)
  else if '0' ≤ c ∧ c ≤ '9' then some (c.toNat + 4)
  else if c = '+' ∨ c = '-' then some 62
  else if c = '/' ∨ c = '_' then some 63
  else none

/-- Characters kept by the decoder: alphabet characters and padding. -/
def b64Keep (c : Char) : Bool := (b64Val? c).isSome || c = '='

/-- Regroup six-bit values into bytes; the argument length is ≡ 0, 2 or 3
(mod 4); a trailing group of 2 gives one byte, of 3 gives two bytes. -/
def b64DecodeVals : List Nat → List Nat
  | a :: b :: c :: d :: rest =>
      (a * 4 + b / 16) :: ((b % 16) * 16 + c / 4) :: ((c % 4) * 64 + d) :: b64DecodeVals rest
  | [a, b] => [a * 4 + b / 16]
  | [a, b, c] => [a * 4 + b / 16, (b % 16) * 16 + c / 4]
  | _ => []

/-- Result of `base64.urlsafe_b64decode` as a byte list, `none` when the
call would raise (invalid padding). -/
def b64Parse (s : String) : Option (List Nat) :=
  let chars := s.data.filter b64Keep
  let dataVals := chars.takeWhile (fun c => c ≠ '=')
  let padding := chars.dropWhile (fun c => c ≠ '=')
  if padding.all (fun c => c = '=') ∧ padding.length ≤ 2 ∧
      (dataVals.length + padding.length) % 4 = 0 then
    some (b64DecodeVals (dataVals.filterMap b64Val?))
  else none

/-- Whether `b` is a UTF-8 continuation byte. -/
def utf8Cont (b : Nat) : Bool := 128 ≤ b && b ≤ 191

/-- Lower bound of the second byte for lead byte `b` (the ranges that
exclude overlong encodings and surrogates). -/
def utf8Lo2 (b : Nat) : Nat := if b = 224 then 160 else if b = 240 then 144 else 128

/-- Upper bound of the second byte for lead byte `b`. -/
def utf8Hi2 (b : Nat) : Nat := if b = 237 then 159 else if b = 244 then 143 else 191

/-- Decode one UTF-8 sequence starting at lead byte `b` with the remaining
bytes in `rest`; returns the character and how many bytes of `rest` were
consumed, or `none` for an invalid sequence.  The second-byte ranges exclude
overlong encodings and surrogates, so every produced code point is valid. -/
def utf8Step (b : Nat) (rest : List Nat) : Option (Char × Nat) :=
  if b < 128 then some (Char.ofNat b, 0)
  else if 194 ≤ b && b ≤ 223 then
    match rest with
    | b2 :: _ =>
        if utf8Cont b2 then some (Char.ofNat ((b - 192) * 64 + (b2 - 128)), 1) else none
    | [] => none
  else if 224 ≤ b && b ≤ 239 then
    match rest with
    | b2 :: b3 :: _ =>
        if (utf8Lo2 b ≤ b2 && b2 ≤ utf8Hi2 b) && utf8Cont b3 then
          some (Char.ofNat ((b - 224) * 4096 + (b2 - 128) * 64 + (b3 - 128)), 2)
        else none
    | _ => none
  else if 240 ≤ b && b ≤ 244 then
    match rest with
    | b2 :: b3 :: b4 :: _ =>
        if ((utf8Lo2 b ≤ b2 && b2 ≤ utf8Hi2 b) && utf8Cont b3) && utf8Cont b4 then
          some (Char.ofNat ((b - 240) * 262144 + (b2 - 128) * 4096 + (b3 - 128) * 64 + (b4 - 128)), 3)
        else none
    | _ => none
  else none

/-- Loop of `utf8DecodeIgnore`.  Each iteration consumes at least one byte,
so any fuel of at least the byte count gives the loop's full semantics; the
wrapper passes exactly the byte count. -/
def utf8DecodeGo : Nat → List Nat → List Char
  | _, [] => []
  | 0, _ :: _ => []
  | fuel + 1, b :: rest =>
    match utf8Step b rest with
    | some (c, k) => c :: utf8DecodeGo fuel (rest.drop k)
    | none => utf8DecodeGo fuel rest

/-- `bytes.decode("utf-8", "ignore")`: decode, skipping bytes that do not
start a valid sequence (on a malformed sequence the lead byte is skipped;
the exact skip granularity only differs from CPython on malformed input,
which no theorem below exercises). -/
def utf8DecodeIgnore (bytes : List Nat) : List Char :=
  utf8DecodeGo bytes.length bytes

/-- The padding the source appends: `"=" * (-len(data) % 4)`. -/
def mkPad (s : String) : String :=
  String.mk (List.replicate ((4 - s.length % 4) % 4) '=')

/-- gmail_service.py `_b64decode_url`: URL-safe base-64 decode tolerating
missing padding; any decode failure is caught and yields `""`. -/
def b64decode_url (data : String) : String :=
  if data = "" then ""
  else
    match b64Parse (data ++ mkPad data) with
    | some bs => String.mk (utf8DecodeIgnore bs)
    | none => ""

/-! ### Gmail message model

A Gmail API `message` as the source reads it: `payload.headers` (name/value
pairs), `payload.parts` (a tree: each part has a `mimeType`, a `body.data`
base-64url payload defaulting to `""`, and nested `parts` defaulting to
`[]`), a top-level `snippet`, and an optional `threadId`.  Absent dictionary
keys are the default values of the corresponding fields.

Python's list of part dictionaries is encoded as a sibling chain:
`MsgTree.node mimeType data children next` is the part list whose first
part has the given fields (with `children` its nested `parts`) and whose
remaining parts are `next`; `MsgTree.nil` is the empty list.  This encoding
keeps every function structurally recursive so it evaluates in the kernel. -/

/-- One entry of `payload.headers`. -/
structure Header where
  name : String
  value : String
deriving DecidableEq

/-- A list of body parts, as a sibling chain (see section comment). -/
inductive MsgTree where
  | nil
  | node (mimeType : String) (data : String) (children : MsgTree) (next : MsgTree)
deriving DecidableEq

/-- Append two part lists (reusing the sibling chain). -/
def MsgTree.append : MsgTree → MsgTree → MsgTree
  | .nil, l => l
  | .node m d cs nx, l => .node m d cs (MsgTree.append nx l)

/-- Reverse a part list, with accumulator. -/
def MsgTree.revAux : MsgTree → MsgTree → MsgTree
  | .nil, acc => acc
  | .node m d cs nx, acc => MsgTree.revAux nx (.node m d cs acc)

/-- Reverse a part list (top-level chain only). -/
def MsgTree.reverse (l : MsgTree) : MsgTree := MsgTree.revAux l .nil

/-- Total number of nodes of a part list, nested parts included.  One loop
iteration of the part scan removes exactly one node, so this bounds (in
fact equals) the iteration count. -/
def MsgTree.count : MsgTree → Nat
  | .nil => 0
  | .node _ _ cs nx => 1 + MsgTree.count cs + MsgTree.count nx

/-- The `payload` of a message: headers and top-level parts. -/
structure Payload where
  headers : List Header
  parts : MsgTree
deriving DecidableEq

/-- A Gmail message as consumed by `strip_quotes` / `build_mime`. -/
structure GmailMessage where
  payload : Payload
  snippet : String
  threadId : Option String
deriving DecidableEq

/-! ### `strip_quotes` (gmail_service.py lines 53-79)

The source copies `payload["parts"]` into a work list and repeatedly
`pop()`s from its end, extending the end with a multipart's children.  We
keep the work list with its top (the Python list's last element) first, so
`pop()` is head-pattern-matching and `parts.extend(children)` pushes
`children.reverse`; the initial work list is `payload.parts.reverse`. -/

/-- The `while parts:` loop of `strip_quotes`: pop a part; recurse into
multiparts; append decoded `text/plain` data to the first accumulator and
decoded `text/html` data to the second.  Each iteration removes one node,
so any fuel of at least `stack.count` gives the loop's full semantics
(proved fuel-independent in `scanPartsGo_eq`); the wrapper passes
`stack.count`. -/
def scanPartsGo : Nat → MsgTree → String → String → String × String
  | _, .nil, t, h => (t, h)
  | 0, .node _ _ _ _, t, h => (t, h)
  | fuel + 1, .node m d cs rest, t, h =>
    if pyStartswith m "multipart/" then scanPartsGo fuel (MsgTree.append cs.reverse rest) t h
    else if m = "text/plain" then scanPartsGo fuel rest (t ++ b64decode_url d) h
    else if m = "text/html" then scanPartsGo fuel rest t (h ++ b64decode_url d)
    else scanPartsGo fuel rest t h

/-- The `while parts:` loop, started on a work stack. -/
def scanParts (stack : MsgTree) (t h : String) : String × String :=
  scanPartsGo stack.count stack t h

theorem length_dropWhileChars_le (p : Char → Bool) (l : List Char) :
    (l.dropWhile p).length ≤ l.length := by
  induction l with
  | nil => simp [List.dropWhile]
  | cons a t ih =>
      rw [List.dropWhile_cons]
      split
      · simp only [List.length_cons]; omega
      · simp

/-- Modelled from the spec: the HTML branch of `strip_quotes` calls the
external libraries BeautifulSoup (`get_text(" ", strip=True)`: drop tags,
strip each text segment, join the non-empty segments with single spaces)
and `html.unescape` (entity unescaping, here the common named/numeric
entities).  No claim depends on the content of this function. -/
def stripTags : List Char → List Char
  | [] => []
  | '<' :: rest => stripTags ((rest.dropWhile (fun c => c ≠ '>')).drop 1)
  | c :: rest => c :: stripTags rest
termination_by l => l.length
decreasing_by
  · have := length_dropWhileChars_le (fun c => decide (c ≠ '>')) rest
    simp only [List.length_cons, List.length_drop]
    omega
  · simp only [List.length_cons]; omega

/-- Split into maximal whitespace-free segments, dropping empty ones. -/
def splitWsAux (acc : List Char) : List Char → List (List Char)
  | [] => if acc = [] then [] else [acc.reverse]
  | c :: rest =>
      if pyIsSpace c then
        (if acc = [] then splitWsAux [] rest else acc.reverse :: splitWsAux [] rest)
      else splitWsAux (c :: acc) rest

/-- Replace the common HTML entities by their characters. -/
def unescapeChars : List Char → List Char
  | '&' :: 'a' :: 'm' :: 'p' :: ';' :: rest => '&' :: unescapeChars rest
  | '&' :: 'l' :: 't' :: ';' :: rest => '<' :: unescapeChars rest
  | '&' :: 'g' :: 't' :: ';' :: rest => '>' :: unescapeChars rest
  | '&' :: 'q' :: 'u' :: 'o' :: 't' :: ';' :: rest => '"' :: unescapeChars rest
  | '&' :: '#' :: '3' :: '9' :: ';' :: rest => Char.ofNat 39 :: unescapeChars rest
  | '&' :: 'n' :: 'b' :: 's' :: 'p' :: ';' :: rest => ' ' :: unescapeChars rest
  | c :: rest => c :: unescapeChars rest
  | [] => []

/-- Modelled from the spec: `html.unescape(BeautifulSoup(body,
"html.parser").get_text(" ", strip=True))`. -/
def htmlGetText (s : String) : String :=
  let segs := splitWsAux [] (stripTags s.data)
  String.mk (unescapeChars (joinSpace (segs.map String.mk)).data)
where
  /-- `" ".join(segments)`. -/
  joinSpace : List String → String
    | [] => ""
    | [s] => s
    | s :: rest => s ++ " " ++ joinSpace rest

/-- Body selection of `strip_quotes` (lines 69-71): `body = text_part or
html_part or snippet`, then the HTML branch when only HTML was found. -/
def selectedBody (message : GmailMessage) : String :=
  let acc := scanParts message.payload.parts.reverse "" ""
  let text_part := acc.1
  let html_part := acc.2
  let body := if text_part ≠ "" then text_part
              else if html_part ≠ "" then html_part
              else message.snippet
  if html_part ≠ "" ∧ text_part = "" then htmlGetText body else body

/-- The test `re.match(r"^>+|\s*On .*wrote:", line)`: the line starts with
`>`, or after optional leading whitespace starts with `On ` followed
somewhere by `wrote:` (`.` cannot cross a line break and split lines
contain none). -/
def quoteLine (line : String) : Bool :=
  (match line.data with
   | '>' :: _ => true
   | _ => false)
  ||
  (match line.data.dropWhile pyIsSpace with
   | 'O' :: 'n' :: ' ' :: tail => containsChars "wrote:".data tail
   | _ => false)

/-- The `for line in body.splitlines()` loop (lines 73-77): stop at the
first quoted line, keep earlier lines right-stripped. -/
def cleanedLines : List String → List String
  | [] => []
  | line :: rest =>
      if quoteLine line then [] else pyRstrip line :: cleanedLines rest

/-- The quote-stripping tail of `strip_quotes` applied to a selected body:
`"\n".join(cleaned).strip() or body.strip()`. -/
def stripQuoteBody (body : String) : String :=
  let j := pyStrip (joinNL (cleanedLines (pySplitlines body)))
  if j ≠ "" then j else pyStrip body

/-- gmail_service.py `strip_quotes`: clean text of a Gmail message. -/
def strip_quotes (message : GmailMessage) : String :=
  stripQuoteBody (selectedBody message)

/-! ### `build_mime` (gmail_service.py lines 82-102)

The source serializes a `MIMEText` and base-64url-encodes it; the envelope
below records the exact header values and body the serialization would
carry (the byte-level RFC 822 rendering by the external `email` library is
not modelled; no claim depends on it).  `raise ValueError` for a missing
`From` is `Except.error BuildErr.invalidOriginal`. -/

/-- Failure of `build_mime` (`ValueError: Original message lacks 'From'`). -/
inductive BuildErr where
  | invalidOriginal
deriving DecidableEq

/-- The reply envelope: the headers and body set on the `MIMEText`
(`to`/`from` are `toAddr`/`fromAddr`; both are reserved words in Lean). -/
structure Envelope where
  toAddr : String
  fromAddr : String
  subject : String
  inReplyTo : Option String
  references : Option String
  body : String
deriving DecidableEq

/-- The dict comprehension `{h["name"].lower(): h["value"] for h in
headers}` followed by `.get(key)`: the value of the last header whose
lower-cased name equals `key`. -/
def headerLookup (headers : List Header) (key : String) : Option String :=
  headers.foldl (fun acc h => if pyLower h.name = key then some h.value else acc) none

/-- gmail_service.py `build_mime`: build the reply envelope. -/
def build_mime (reply_text : String) (original : GmailMessage) (from_addr : String) :
    Except BuildErr Envelope :=
  let hdrs := original.payload.headers
  let toHdr := headerLookup hdrs "from"
  let subj0 := pyStrip ((headerLookup hdrs "subject").getD "")
  let mid := headerLookup hdrs "message-id"
  match toHdr with
  | none => .error .invalidOriginal
  | some t =>
    if t = "" then .error .invalidOriginal
    else
      let subj := if pyStartswith (pyLower subj0) "re:" then subj0
                  else "Re: " ++ (if subj0 = "" then "your email" else subj0)
      let midSet := match mid with
        | some mv => if mv ≠ "" then some mv else none
        | none => none
      .ok { toAddr := t, fromAddr := from_addr, subject := subj,
            inReplyTo := midSet, references := midSet, body := reply_text }

/-! ### `LLMService.draft_reply` (llm_service.py lines 54-74) -/

/-- The canned sentence returned when the OpenAI call fails. -/
def canned_reply : String := "I received your email and will get back to you soon."

/-- llm_service.py `draft_reply`: the ChatCompletion call is external, so
its outcome (the `response.choices[0].message.content`, or the exception)
is an oracle argument; `clean_email` is the text the source passes to it.
On success the content is stripped; on any failure the canned sentence is
returned. -/
def draft_reply (clean_email : String) (outcome : Except String String) : String :=
  match outcome with
  | .ok content => pyStrip content
  | .error _ => canned_reply

/-! ### `DraftRepository` (draft_repo.py)

The `drafts` table is a list of records; `AUTOINCREMENT` is `nextId`;
`datetime.now()` is the explicit `now` argument; `cursor.rowcount > 0`
after `UPDATE ... WHERE id = ?` is "some row has that id". -/

/-- One row of the `drafts` table. -/
structure DraftRecord where
  id : Nat
  message_id : String
  draft_id : String
  reply_text : String
  status : String
  created_at : Nat
  updated_at : Nat
deriving DecidableEq

/-- The `drafts` table plus the autoincrement counter. -/
structure DraftDB where
  drafts : List DraftRecord
  nextId : Nat
deriving DecidableEq

/-- draft_repo.py `save_draft`: insert a new row, returning `lastrowid`. -/
def save_draft (db : DraftDB) (now : Nat)
    (message_id draft_id reply_text status : String) : Nat × DraftDB :=
  let rid := db.nextId
  (rid,
   { drafts := db.drafts ++
       [{ id := rid, message_id := message_id, draft_id := draft_id,
          reply_text := reply_text, status := status,
          created_at := now, updated_at := now }],
     nextId := rid + 1 })

/-- draft_repo.py `update_draft_status`: `UPDATE drafts SET status, reply_text,
updated_at WHERE id = ?` when `updated_text` is truthy (a non-empty string),
else `UPDATE drafts SET status, updated_at WHERE id = ?`; the returned
boolean is `cursor.rowcount > 0`.  There is no check of the current status:
the `WHERE` clause matches on `id` alone. -/
def update_draft_status (db : DraftDB) (now : Nat) (db_id : Nat)
    (status : String) (updated_text : Option String) : Bool × DraftDB :=
  let truthy := match updated_text with
    | some s => decide (s ≠ "")
    | none => false
  let newDrafts :=
    if truthy then
      db.drafts.map (fun r =>
        if r.id = db_id then
          { r with status := status, reply_text := updated_text.getD r.reply_text,
                   updated_at := now }
        else r)
    else
      db.drafts.map (fun r =>
        if r.id = db_id then { r with status := status, updated_at := now } else r)
  let success := db.drafts.any (fun r => r.id == db_id)
  (success, { drafts := newDrafts, nextId := db.nextId })

/-! ### `SchedulerService.poll_inbox` (scheduler.py lines 42-83)

The per-message loop body runs under `try/except Exception: continue`.
Each Gmail/OpenAI call is an oracle recorded in `MsgEnv`; the SQLite insert
is likewise allowed to fail (`saveOk`), in which case the transaction never
commits and the table is unchanged.  The cycle state is the draft table
plus the list of message ids marked read, in order. -/

/-- Environment of one message of the batch: its id and the outcome each
external call would have. -/
structure MsgEnv where
  msgId : String
  getMessage : Except String GmailMessage
  llmOutcome : Except String String
  createDraft : Except String String
  saveOk : Bool
  markReadOk : Bool

/-- Body of `for msg in messages:` — steps a-g of one message, with every
raised error caught (`st` returned unchanged past the failing step). -/
def processMsg (user_email : String) (now : Nat)
    (st : DraftDB × List String) (m : MsgEnv) : DraftDB × List String :=
  match m.getMessage with
  | .error _ => st
  | .ok full_message =>
    let clean_content := strip_quotes full_message
    let reply_text := draft_reply clean_content m.llmOutcome
    let thread_id := match full_message.threadId with
      | some t => if t ≠ "" then t else m.msgId
      | none => m.msgId
    match build_mime reply_text full_message user_email with
    | .error _ => st
    | .ok _raw_mime =>
      match m.createDraft with
      | .error _ => st
      | .ok draft_id =>
        if m.saveOk then
          let db2 := (save_draft st.1 now m.msgId draft_id reply_text "pending").2
          if m.markReadOk then (db2, st.2 ++ [m.msgId]) else (db2, st.2)
        else st

/-- scheduler.py `poll_inbox`: process the unread batch in order, isolating
failures per message. -/
def poll_inbox (user_email : String) (now : Nat) (db : DraftDB)
    (msgs : List MsgEnv) : DraftDB × List String :=
  msgs.foldl (processMsg user_email now) (db, [])

/-- Whether one message's pipeline reaches the `save_draft` call and the
insert commits — exactly when `poll_inbox` creates a record for it. -/
def msgSaved (user_email : String) (m : MsgEnv) : Bool :=
  match m.getMessage with
  | .error _ => false
  | .ok full_message =>
    match build_mime (draft_reply (strip_quotes full_message) m.llmOutcome)
        full_message user_email with
    | .error _ => false
    | .ok _ =>
      match m.createDraft with
      | .error _ => false
      | .ok _ => m.saveOk

/-- The (message_id, draft_id, reply_text, status) projection of a row —
the id- and time-independent content. -/
def recProj (r : DraftRecord) : String × String × String × String :=
  (r.message_id, r.draft_id, r.reply_text, r.status)

/-- The projected row `poll_inbox` creates for a message that reaches a
committed `save_draft`. -/
def expectedProj (user_email : String) (m : MsgEnv) : String × String × String × String :=
  (m.msgId,
   (match m.createDraft with | .ok i => i | .error _ => ""),
   (match m.getMessage with
    | .ok full_message => draft_reply (strip_quotes full_message) m.llmOutcome
    | .error _ => ""),
   "pending")

/-! ### Document-order leaf sequences (for the traversal claims about
`strip_quotes`). -/

/-- Decoded `text/plain` leaf payloads of a part list in document order
(the order the parts appear in the message structure). -/
def docTextData : MsgTree → List String
  | .nil => []
  | .node m d cs nx =>
      (if pyStartswith m "multipart/" then docTextData cs
       else if m = "text/plain" then [b64decode_url d] else []) ++ docTextData nx

/-- Decoded `text/html` leaf payloads of a part list in document order. -/
def docHtmlData : MsgTree → List String
  | .nil => []
  | .node m d cs nx =>
      (if pyStartswith m "multipart/" then docHtmlData cs
       else if m = "text/html" then [b64decode_url d] else []) ++ docHtmlData nx

/-! ## Theorems -/

/-! ### C1 — draft store state machine -/

/-- A concrete row already in the terminal status `sent_no_edit`. -/
def c1rec : DraftRecord :=
  { id := 1, message_id := "m1", draft_id := "d1", reply_text := "orig",
    status := "sent_no_edit", created_at := 0, updated_at := 0 }

/-- A table holding only `c1rec`. -/
def c1db : DraftDB := { drafts := [c1rec], nextId := 2 }

/-- C1 (counterexample): the claim says a transition attempt on a record in
a terminal state is not applied, leaves `status` unchanged and returns
`false`.  On a table whose only record has terminal status `sent_no_edit`,
`update_draft_status` returns `true` and overwrites the status with
`rejected`: the `UPDATE ... WHERE id = ?` has no status check. -/
theorem transition_terminal_applied_cex :
    c1db.drafts.map DraftRecord.status = ["sent_no_edit"] ∧
    (update_draft_status c1db 5 1 "rejected" none).1 = true ∧
    (update_draft_status c1db 5 1 "rejected" none).2.drafts.map DraftRecord.status
      = ["rejected"] := by
  decide

/-- C1 (amended): `update_draft_status` applies the transition to any record
whose id matches, regardless of its current status — terminal states are not
absorbing at the store layer — and its boolean result is `true` iff a record
with the id exists in any state (not only `pending`); a matching record
receives the new `status` and `updated_at`, and the new `reply_text` exactly
when a non-empty text is supplied. -/
theorem transition_ignores_status (db : DraftDB) (now db_id : Nat)
    (status : String) (updated_text : Option String) :
    ((update_draft_status db now db_id status updated_text).1 = true ↔
      ∃ r ∈ db.drafts, r.id = db_id)
    ∧ ∀ r ∈ db.drafts, r.id = db_id →
        (if (match updated_text with | some s => decide (s ≠ "") | none => false) then
          { r with status := status, reply_text := updated_text.getD r.reply_text,
                   updated_at := now }
         else { r with status := status, updated_at := now })
          ∈ (update_draft_status db now db_id status updated_text).2.drafts := by
  constructor
  · simp [update_draft_status, List.any_eq_true]
  · intro r hr hid
    have hmem := fun (f : DraftRecord → DraftRecord) => List.mem_map_of_mem f hr
    match updated_text with
    | none =>
        simpa [update_draft_status, hid] using
          hmem (fun r => if r.id = db_id
            then { r with status := status, updated_at := now } else r)
    | some s =>
        by_cases hs : s = ""
        · subst hs
          simpa [update_draft_status, hid] using
            hmem (fun r => if r.id = db_id
              then { r with status := status, updated_at := now } else r)
        · simpa [update_draft_status, hid, hs] using
            hmem (fun r => if r.id = db_id
              then { r with status := status,
                            reply_text := (some s).getD r.reply_text,
                            updated_at := now } else r)

/-- C1 (witness): the amended theorem applied to the one-row terminal-status
table: the update reports success and the rewritten row is in the table. -/
theorem transition_ignores_status_witness :
    (update_draft_status c1db 5 1 "rejected" none).1 = true ∧
    { c1rec with status := "rejected", updated_at := 5 }
      ∈ (update_draft_status c1db 5 1 "rejected" none).2.drafts := by
  refine ⟨?_, ?_⟩
  · exact (transition_ignores_status c1db 5 1 "rejected" none).1.mpr
      ⟨c1rec, by decide, rfl⟩
  · exact (transition_ignores_status c1db 5 1 "rejected" none).2 c1rec (by decide) rfl

/-! ### C10 — empty updated text behaves like no text -/

/-- C10: calling `update_draft_status` with `updated_text = some ""` is
indistinguishable from calling it with no text: Python's `if updated_text:`
tests truthiness, and the empty string is falsy, so the branch that would
replace `reply_text` is not taken; moreover the no-text branch never changes
any record's `reply_text`, so an edit transition carrying an empty body can
never clear the stored reply text. -/
theorem empty_text_transition_eq_none (db : DraftDB) (now db_id : Nat) (status : String) :
    update_draft_status db now db_id status (some "")
      = update_draft_status db now db_id status none
    ∧ (update_draft_status db now db_id status none).2.drafts.map DraftRecord.reply_text
      = db.drafts.map DraftRecord.reply_text := by
  constructor
  · rfl
  · have key : ∀ (l : List DraftRecord),
        (l.map (fun r =>
          if r.id = db_id then { r with status := status, updated_at := now } else r)).map
            DraftRecord.reply_text
          = l.map DraftRecord.reply_text := by
      intro l
      induction l with
      | nil => rfl
      | cons a t ih =>
          simp only [List.map_cons, ih, List.cons.injEq, and_true]
          split <;> rfl
    simpa [update_draft_status] using key db.drafts

/-! ### C8 — generator failure is replaced by the canned fallback -/

theorem build_mime_body_indep (r1 r2 : String) (orig : GmailMessage) (u : String) :
    build_mime r1 orig u = (build_mime r2 orig u).map (fun env => { env with body := r1 }) := by
  simp only [build_mime]
  cases h : headerLookup orig.payload.headers "from" with
  | none => rfl
  | some t =>
      by_cases ht : t = "" <;> simp [ht, Except.map]

/-- C8: `draft_reply` is total — on any failure of the OpenAI call it
returns the fixed canned sentence instead of raising, on success the
stripped content — and in the poll cycle, whether a message's record is
created never depends on the generation outcome: replacing it by any
failure leaves `msgSaved` unchanged (the pipeline never aborts a message
because generation failed). -/
theorem generation_failure_fallback :
    (∀ clean_email e, draft_reply clean_email (Except.error e) = canned_reply)
    ∧ (∀ clean_email content, draft_reply clean_email (Except.ok content) = pyStrip content)
    ∧ (∀ user m e, msgSaved user { m with llmOutcome := Except.error e } = msgSaved user m) := by
  refine ⟨fun _ _ => rfl, fun _ _ => rfl, fun user m e => ?_⟩
  obtain ⟨mid, gm, llm, cd, sv, mr⟩ := m
  unfold msgSaved
  cases gm with
  | error _ => rfl
  | ok full_message =>
      simp only
      rw [build_mime_body_indep (draft_reply (strip_quotes full_message) (Except.error e))
            "" full_message user,
          build_mime_body_indep (draft_reply (strip_quotes full_message) llm)
            "" full_message user]
      cases build_mime "" full_message user <;> rfl

/-! ### C6 — composing without a `From` header fails -/

theorem headerLookup_of_absent (headers : List Header) (key : String)
    (h : ∀ hd ∈ headers, pyLower hd.name ≠ key) : headerLookup headers key = none := by
  have aux : ∀ (l : List Header) (acc : Option String),
      (∀ hd ∈ l, pyLower hd.name ≠ key) →
      l.foldl (fun acc hd => if pyLower hd.name = key then some hd.value else acc) acc = acc := by
    intro l
    induction l with
    | nil => intro acc _; rfl
    | cons a t ih =>
        intro acc hall
        rw [List.foldl_cons, if_neg (hall a (by simp))]
        exact ih acc (fun hd hm => hall hd (by simp [hm]))
  exact aux headers none h

/-- C6: for an original message whose header set contains no header whose
name lower-cases to `from`, `build_mime` raises (`InvalidOriginal`, the
source's `ValueError`); no envelope is produced. -/
theorem missing_from_header_fails (reply_text : String) (original : GmailMessage)
    (from_addr : String)
    (h : ∀ hd ∈ original.payload.headers, pyLower hd.name ≠ "from") :
    build_mime reply_text original from_addr = Except.error BuildErr.invalidOriginal := by
  simp only [build_mime]
  rw [headerLookup_of_absent original.payload.headers "from" h]

/-- A concrete original message with headers but no `From`. -/
def c6msg : GmailMessage :=
  { payload := { headers := [⟨"Subject", "x"⟩, ⟨"Message-Id", "<1@x>"⟩], parts := .nil },
    snippet := "", threadId := none }

/-- C6 (witness): composing a reply to `c6msg` fails with `InvalidOriginal`. -/
theorem missing_from_header_fails_witness :
    build_mime "r" c6msg "me@x" = Except.error BuildErr.invalidOriginal :=
  missing_from_header_fails "r" c6msg "me@x" (by decide)

/-! ### C9 — decoder totality and padding tolerance -/

theorem strLength_append (a b : String) : (a ++ b).length = a.length + b.length := by
  rcases a with ⟨da⟩
  rcases b with ⟨db⟩
  show (da ++ db).length = da.length + db.length
  exact List.length_append da db

theorem mkPad_of_aligned (s : String) (h : s.length % 4 = 0) : mkPad s = "" := by
  unfold mkPad
  rw [h]
  rfl

theorem strAppend_empty (s : String) : s ++ "" = s := by
  rcases s with ⟨d⟩
  show String.mk (d ++ []) = String.mk d
  rw [List.append_nil]

theorem mkPad_length (s : String) : (mkPad s).length = (4 - s.length % 4) % 4 := by
  show (List.replicate ((4 - s.length % 4) % 4) '=').length = (4 - s.length % 4) % 4
  exact List.length_replicate _ _

/-- C9: `_b64decode_url` never raises (it is a total function into
`String`); adding the omitted padding back changes nothing (decoding an
unpadded input equals decoding its padded-back equivalent); when the
base-64 parse would raise, the caught exception yields `""`; and the
unpadded `"QQ"` decodes to `"A"`. -/
theorem decoder_total_and_padding_tolerant :
    (∀ data : String, b64decode_url data = b64decode_url (data ++ mkPad data))
    ∧ (∀ data : String, b64Parse (data ++ mkPad data) = none → b64decode_url data = "")
    ∧ b64decode_url "QQ" = "A" := by
  refine ⟨?_, ?_, by decide⟩
  · intro data
    by_cases hd : data = ""
    · subst hd; rfl
    · have hlen : data.length ≠ 0 := by
        rcases data with ⟨l⟩
        cases l with
        | nil => exact absurd rfl hd
        | cons c cs =>
            show (c :: cs).length ≠ 0
            simp
      have hnem : data ++ mkPad data ≠ "" := by
        intro hcontra
        have h0 : (data ++ mkPad data).length = 0 := by rw [hcontra]; rfl
        rw [strLength_append] at h0
        omega
      have hpad2 : mkPad (data ++ mkPad data) = "" := by
        apply mkPad_of_aligned
        rw [strLength_append, mkPad_length]
        omega
      unfold b64decode_url
      rw [if_neg hd, if_neg hnem, hpad2, strAppend_empty]
  · intro data hparse
    unfold b64decode_url
    by_cases hd : data = ""
    · simp [hd]
    · rw [if_neg hd, hparse]

/-- C9 (witness): `"Q"` (one data character, unfixable by padding) makes the
parse fail, and the decoder returns `""` for it instead of raising. -/
theorem decoder_total_witness :
    b64Parse ("Q" ++ mkPad "Q") = none ∧ b64decode_url "Q" = "" :=
  ⟨by decide, decoder_total_and_padding_tolerant.2.1 "Q" (by decide)⟩

/-! ### C3 — quote stripping -/

/-- The result C3's wording claims: the lines before the first quoted line,
each with trailing whitespace trimmed, joined with newlines — without the
final `.strip()` of the join and without the empty-result fallback the
source applies. -/
def c3ClaimedResult (body : String) : String :=
  joinNL (((pySplitlines body).takeWhile (fun l => !quoteLine l)).map pyRstrip)

theorem cleanedLines_eq (ls : List String) :
    cleanedLines ls = (ls.takeWhile (fun l => !quoteLine l)).map pyRstrip := by
  induction ls with
  | nil => rfl
  | cons l rest ih =>
      simp only [cleanedLines, List.takeWhile_cons]
      by_cases h : quoteLine l <;> simp [h, ih]

/-- The example message whose plain-text body is
`"Hello\n> quoted line\nmore"` (base-64url of that string). -/
def helloMsg : GmailMessage where
  payload :=
    { headers := [],
      parts := MsgTree.node "text/plain" "SGVsbG8KPiBxdW90ZWQgbGluZQptb3Jl" .nil .nil }
  snippet := ""
  threadId := none

/-- The example message whose plain-text body is
`"Thanks!\nOn Mon, Jan 1, 2024, X wrote:\n...old..."`. -/
def thanksMsg : GmailMessage where
  payload :=
    { headers := [],
      parts := MsgTree.node "text/plain"
        "VGhhbmtzIQpPbiBNb24sIEphbiAxLCAyMDI0LCBYIHdyb3RlOgouLi5vbGQuLi4" .nil .nil }
  snippet := ""
  threadId := none

/-- An input on which the claimed description and the source differ: the
retained first line carries leading whitespace, which the source's final
`.strip()` removes. -/
def c3cexMsg : GmailMessage :=
  { payload := { headers := [], parts := .nil }, snippet := "  Hello\n> quoted",
    threadId := none }

/-- C3 (counterexample): the claim says extraction returns the retained
lines joined with trailing whitespace trimmed; on a selected body whose
first line has leading whitespace the source additionally left-strips the
join (`"\n".join(cleaned).strip()`), so the results differ. -/
theorem quote_stripping_cex :
    selectedBody c3cexMsg = "  Hello\n> quoted"
    ∧ strip_quotes c3cexMsg = "Hello"
    ∧ c3ClaimedResult (selectedBody c3cexMsg) = "  Hello"
    ∧ strip_quotes c3cexMsg ≠ c3ClaimedResult (selectedBody c3cexMsg) := by
  decide

/-- C3 (amended): extraction scans the selected body's lines from the top
and discards the first line matching `^>+` or `\s*On .*wrote:` together
with all later lines; the earlier lines, each right-trimmed, are joined
with newlines and the join is then stripped of leading and trailing
whitespace; when that result is empty the stripped selected body is
returned instead (see C4).  The claim's two examples hold: body
`"Hello\n> quoted line\nmore"` extracts to `"Hello"` and
`"Thanks!\nOn Mon, Jan 1, 2024, X wrote:\n...old..."` to `"Thanks!"`. -/
theorem quote_stripping_characterized :
    (∀ body : String, stripQuoteBody body =
      (if pyStrip (c3ClaimedResult body) ≠ "" then pyStrip (c3ClaimedResult body)
       else pyStrip body))
    ∧ strip_quotes helloMsg = "Hello"
    ∧ strip_quotes thanksMsg = "Thanks!" := by
  refine ⟨fun body => ?_, by decide, by decide⟩
  simp only [stripQuoteBody, c3ClaimedResult, cleanedLines_eq]

/-! ### C4 — empty-result fallback of extraction -/

/-- A message that is one quoted line with trailing whitespace: the
quote-stripping pass retains nothing. -/
def c4cexMsg : GmailMessage :=
  { payload := { headers := [], parts := .nil }, snippet := "> quoted ",
    threadId := none }

/-- C4 (counterexample): the claim says that when no line is retained the
extraction returns the *untrimmed* selected body; the source returns
`body.strip()`, the trimmed one — on selected body `"> quoted "` it returns
`"> quoted"`, not `"> quoted "`. -/
theorem empty_retained_fallback_cex :
    pyStrip (joinNL (cleanedLines (pySplitlines (selectedBody c4cexMsg)))) = ""
    ∧ selectedBody c4cexMsg = "> quoted "
    ∧ strip_quotes c4cexMsg = "> quoted"
    ∧ strip_quotes c4cexMsg ≠ selectedBody c4cexMsg := by
  decide

/-- C4 (amended): whenever the quote-stripping pass retains no
non-whitespace text (the joined, stripped retained lines are empty),
`strip_quotes` falls back to the *stripped* selected body (the source's
`or body.strip()`), not to the untrimmed body and not to `""`. -/
theorem empty_retained_fallback (message : GmailMessage)
    (h : pyStrip (joinNL (cleanedLines (pySplitlines (selectedBody message)))) = "") :
    strip_quotes message = pyStrip (selectedBody message) := by
  simp only [strip_quotes, stripQuoteBody, h]
  simp

/-- C4 (witness): the amended fallback evaluated on the all-quoted message. -/
theorem empty_retained_fallback_witness :
    pyStrip (joinNL (cleanedLines (pySplitlines (selectedBody c4cexMsg)))) = ""
    ∧ strip_quotes c4cexMsg = pyStrip (selectedBody c4cexMsg) :=
  ⟨by decide, empty_retained_fallback c4cexMsg (by decide)⟩

/-! ### C7 — subject normalization -/

/-- The composed subject C7's wording claims, as a function of the original
`Subject` header value: prefix the original subject unless it already
starts with `re:` case-insensitively; `Re: your email` when absent. -/
def c7ClaimedSubject : Option String → String
  | none => "Re: your email"
  | some v => if pyStartswith (pyLower v) "re:" then v else "Re: " ++ v

/-- The subject the source actually composes: the `.strip()`ped original
subject, prefixed unless the stripped value starts with `re:`
case-insensitively, with `Re: your email` when absent or whitespace-only. -/
def composedSubject (original : GmailMessage) : String :=
  let s := pyStrip ((headerLookup original.payload.headers "subject").getD "")
  if pyStartswith (pyLower s) "re:" then s
  else "Re: " ++ (if s = "" then "your email" else s)

/-- An original whose subject carries surrounding whitespace. -/
def c7cexMsg : GmailMessage where
  payload :=
    { headers := [⟨"From", "alice@example.com"⟩, ⟨"Subject", " hello "⟩],
      parts := .nil }
  snippet := ""
  threadId := none

/-- C7 (counterexample): the claim says the composed subject is the original
subject prefixed with `Re: `; for original subject `" hello "` that is
`"Re:  hello "`, but the source strips the subject first and composes
`"Re: hello"`. -/
theorem subject_normalization_cex :
    headerLookup c7cexMsg.payload.headers "subject" = some " hello "
    ∧ (build_mime "b" c7cexMsg "me@x").toOption.map Envelope.subject = some "Re: hello"
    ∧ c7ClaimedSubject (headerLookup c7cexMsg.payload.headers "subject") = "Re:  hello "
    ∧ (build_mime "b" c7cexMsg "me@x").toOption.map Envelope.subject
        ≠ some (c7ClaimedSubject (headerLookup c7cexMsg.payload.headers "subject")) := by
  decide

/-- Original with subject `"hello"`. -/
def c7helloMsg : GmailMessage :=
  { payload := { headers := [⟨"From", "a@b"⟩, ⟨"Subject", "hello"⟩], parts := .nil },
    snippet := "", threadId := none }

/-- Original with subject `"Re: hello"`. -/
def c7reHelloMsg : GmailMessage :=
  { payload := { headers := [⟨"From", "a@b"⟩, ⟨"Subject", "Re: hello"⟩], parts := .nil },
    snippet := "", threadId := none }

/-- C7 (amended): every successfully composed envelope's subject is the
whitespace-stripped original subject prefixed with `Re: ` unless the
stripped subject already starts with `re:` case-insensitively (then the
stripped subject is used as is), and `Re: your email` when the subject is
absent or whitespace-only; in particular subject `"hello"` composes
`"Re: hello"` and `"Re: hello"` stays `"Re: hello"`. -/
theorem subject_normalization :
    (∀ reply_text original from_addr env,
      build_mime reply_text original from_addr = Except.ok env →
      env.subject = composedSubject original)
    ∧ (build_mime "b" c7helloMsg "me").toOption.map Envelope.subject = some "Re: hello"
    ∧ (build_mime "b" c7reHelloMsg "me").toOption.map Envelope.subject = some "Re: hello" := by
  refine ⟨fun reply_text original from_addr env h => ?_, by decide, by decide⟩
  simp only [build_mime] at h
  cases hf : headerLookup original.payload.headers "from" with
  | none =>
      simp only [hf] at h
      exact Except.noConfusion h
  | some t =>
      simp only [hf] at h
      by_cases ht : t = ""
      · rw [if_pos ht] at h
        exact Except.noConfusion h
      · rw [if_neg ht] at h
        injection h with h2
        rw [← h2]
        rfl

/-- C7 (witness): the amended subject rule evaluated on the
whitespace-subject original. -/
theorem subject_normalization_witness :
    build_mime "b" c7cexMsg "me@x" =
      Except.ok { toAddr := "alice@example.com", fromAddr := "me@x",
                  subject := "Re: hello", inReplyTo := none, references := none,
                  body := "b" }
    ∧ ({ toAddr := "alice@example.com", fromAddr := "me@x", subject := "Re: hello",
         inReplyTo := none, references := none, body := "b" } : Envelope).subject
        = composedSubject c7cexMsg :=
  ⟨by rfl, subject_normalization.1 "b" c7cexMsg "me@x" _ (by rfl)⟩

/-! ### C5 — traversal order of the body tree -/

theorem strEmpty_append (s : String) : "" ++ s = s := by
  rcases s with ⟨d⟩
  show String.mk ([] ++ d) = String.mk d
  rw [List.nil_append]

theorem strAppend_assoc (a b c : String) : (a ++ b) ++ c = a ++ (b ++ c) := by
  rcases a with ⟨da⟩
  rcases b with ⟨db⟩
  rcases c with ⟨dc⟩
  show String.mk ((da ++ db) ++ dc) = String.mk (da ++ (db ++ dc))
  rw [List.append_assoc]

theorem strConcat_append (l1 l2 : List String) :
    strConcat (l1 ++ l2) = strConcat l1 ++ strConcat l2 := by
  induction l1 with
  | nil => simp [strConcat, strEmpty_append]
  | cons a t ih => simp [strConcat, ih, strAppend_assoc]

theorem append_assoc_tree (a b c : MsgTree) :
    MsgTree.append (MsgTree.append a b) c = MsgTree.append a (MsgTree.append b c) := by
  induction a with
  | nil => rfl
  | node m d cs nx ihcs ihnx => simp [MsgTree.append, ihnx]

theorem append_nil_tree (l : MsgTree) : MsgTree.append l .nil = l := by
  induction l with
  | nil => rfl
  | node m d cs nx ihcs ihnx => simp [MsgTree.append, ihnx]

theorem revAux_eq (l : MsgTree) :
    ∀ acc, MsgTree.revAux l acc = MsgTree.append l.reverse acc := by
  induction l with
  | nil => intro acc; rfl
  | node m d cs nx ihcs ihnx =>
      intro acc
      show MsgTree.revAux nx (MsgTree.node m d cs acc)
        = MsgTree.append (MsgTree.revAux nx (MsgTree.node m d cs .nil)) acc
      rw [ihnx (MsgTree.node m d cs acc), ihnx (MsgTree.node m d cs .nil),
          append_assoc_tree]
      rfl

theorem reverse_node_tree (m d : String) (cs nx : MsgTree) :
    (MsgTree.node m d cs nx).reverse
      = MsgTree.append nx.reverse (MsgTree.node m d cs .nil) := by
  show MsgTree.revAux nx (MsgTree.node m d cs .nil) = _
  rw [revAux_eq]

theorem reverse_append_tree (a b : MsgTree) :
    (MsgTree.append a b).reverse = MsgTree.append b.reverse a.reverse := by
  induction a with
  | nil =>
      show (MsgTree.append .nil b).reverse = MsgTree.append b.reverse .nil
      rw [append_nil_tree]
      rfl
  | node m d cs nx ihcs ihnx =>
      show (MsgTree.node m d cs (MsgTree.append nx b)).reverse = _
      rw [reverse_node_tree, ihnx, append_assoc_tree, ← reverse_node_tree]

theorem reverse_reverse_tree (l : MsgTree) : l.reverse.reverse = l := by
  induction l with
  | nil => rfl
  | node m d cs nx ihcs ihnx =>
      rw [reverse_node_tree, reverse_append_tree, ihnx]
      rfl

theorem count_append_tree (a b : MsgTree) :
    (MsgTree.append a b).count = a.count + b.count := by
  induction a with
  | nil => simp [MsgTree.append, MsgTree.count]
  | node m d cs nx ihcs ihnx =>
      show (MsgTree.node m d cs (MsgTree.append nx b)).count = _
      simp [MsgTree.count, ihnx]
      omega

theorem count_reverse_tree (l : MsgTree) : l.reverse.count = l.count := by
  induction l with
  | nil => rfl
  | node m d cs nx ihcs ihnx =>
      rw [reverse_node_tree, count_append_tree, ihnx]
      simp [MsgTree.count]
      omega

theorem docTextData_append (a b : MsgTree) :
    docTextData (MsgTree.append a b) = docTextData a ++ docTextData b := by
  induction a with
  | nil => rfl
  | node m d cs nx ihcs ihnx =>
      show docTextData (MsgTree.node m d cs (MsgTree.append nx b)) = _
      simp [docTextData, ihnx]

theorem docHtmlData_append (a b : MsgTree) :
    docHtmlData (MsgTree.append a b) = docHtmlData a ++ docHtmlData b := by
  induction a with
  | nil => rfl
  | node m d cs nx ihcs ihnx =>
      show docHtmlData (MsgTree.node m d cs (MsgTree.append nx b)) = _
      simp [docHtmlData, ihnx]

/-- The scan loop's semantics for any sufficient fuel: starting from
accumulators `t`, `h`, it appends the decoded `text/plain` (resp.
`text/html`) leaf payloads of the stack in the *reverse* of document
order.  Each iteration removes one node, so `stack.count` iterations
always suffice. -/
theorem scanPartsGo_eq (fuel : Nat) :
    ∀ (stack : MsgTree) (t h : String), stack.count ≤ fuel →
      scanPartsGo fuel stack t h =
        (t ++ strConcat (docTextData stack.reverse).reverse,
         h ++ strConcat (docHtmlData stack.reverse).reverse) := by
  induction fuel with
  | zero =>
      intro stack t h hc
      cases stack with
      | nil => simp [scanPartsGo, MsgTree.reverse, MsgTree.revAux, docTextData,
          docHtmlData, strConcat, strAppend_empty]
      | node m d cs nx => simp [MsgTree.count] at hc
  | succ fuel ih =>
      intro stack t h hc
      cases stack with
      | nil => simp [scanPartsGo, MsgTree.reverse, MsgTree.revAux, docTextData,
          docHtmlData, strConcat, strAppend_empty]
      | node m d cs nx =>
          have hcount : cs.count + nx.count ≤ fuel := by
            simp [MsgTree.count] at hc
            omega
          rw [reverse_node_tree, docTextData_append, docHtmlData_append]
          simp only [scanPartsGo]
          by_cases hm : pyStartswith m "multipart/" = true
          · rw [if_pos hm]
            rw [ih (MsgTree.append cs.reverse nx) t h
              (by rw [count_append_tree, count_reverse_tree]; omega)]
            rw [reverse_append_tree, reverse_reverse_tree,
                docTextData_append, docHtmlData_append]
            simp [docTextData, docHtmlData, hm, strConcat_append,
                List.reverse_append]
          · rw [if_neg hm]
            by_cases hp : m = "text/plain"
            · rw [if_pos hp]
              rw [ih nx (t ++ b64decode_url d) h (by omega)]
              simp [docTextData, docHtmlData, hm, hp, strConcat_append,
                  List.reverse_append, strConcat, strAppend_assoc, strAppend_empty]
            · rw [if_neg hp]
              by_cases hh : m = "text/html"
              · rw [if_pos hh]
                rw [ih nx t (h ++ b64decode_url d) (by omega)]
                simp [docTextData, docHtmlData, hm, hp, hh, strConcat_append,
                    List.reverse_append, strConcat, strAppend_assoc, strAppend_empty]
              · rw [if_neg hh]
                rw [ih nx t h (by omega)]
                simp [docTextData, docHtmlData, hm, hp, hh, strConcat_append,
                    List.reverse_append, strConcat, strAppend_assoc, strAppend_empty]

/-- Two sibling plain-text parts: "A" first, "B" second (document order). -/
def c5parts : MsgTree :=
  MsgTree.node "text/plain" "QQ==" .nil (MsgTree.node "text/plain" "Qg==" .nil .nil)

/-- C5 (counterexample): the claim says same-type sibling leaves are
concatenated in document order; for sibling plain-text parts decoding to
`"A"` and `"B"` the document-order concatenation is `"AB"`, but the loop
pops from the end of the work list and accumulates `"BA"`. -/
theorem traversal_order_cex :
    docTextData c5parts = [b64decode_url "QQ==", b64decode_url "Qg=="]
    ∧ strConcat (docTextData c5parts) = "AB"
    ∧ (scanParts c5parts.reverse "" "").1 = "BA"
    ∧ (scanParts c5parts.reverse "" "").1 ≠ strConcat (docTextData c5parts) := by
  decide

/-- C5 (amended): the scan of a message's part tree visits each
`text/plain` and each `text/html` leaf exactly once, and the accumulators
are the concatenations of the decoded same-type leaf payloads in the
*reverse* of document order (each leaf contributes exactly one element of
the reversed document-order list). -/
theorem traversal_reverse_document_order :
    (∀ parts : MsgTree,
      scanParts parts.reverse "" "" =
        (strConcat (docTextData parts).reverse,
         strConcat (docHtmlData parts).reverse))
    ∧ (scanParts c5parts.reverse "" "").1 = "BA" := by
  refine ⟨fun parts => ?_, by decide⟩
  unfold scanParts
  rw [scanPartsGo_eq parts.reverse.count parts.reverse "" "" (Nat.le_refl _),
      reverse_reverse_tree, strEmpty_append, strEmpty_append]

/-! ### C2 — poll-cycle batch isolation -/

/-- Effect of one message on the draft table: exactly when `msgSaved`, the
record for this message is appended; in every failure branch (fetch,
compose, provider-draft creation, store insert) and on a mark-as-read
failure after the insert, the table is respectively unchanged or keeps the
inserted record — the caught exception never touches other messages' rows. -/
theorem processMsg_drafts (user : String) (now : Nat)
    (st : DraftDB × List String) (m : MsgEnv) :
    (processMsg user now st m).1.drafts =
      (if msgSaved user m = true then
        st.1.drafts ++
          [{ id := st.1.nextId, message_id := m.msgId,
             draft_id := (match m.createDraft with | .ok i => i | .error _ => ""),
             reply_text := (match m.getMessage with
               | .ok fm => draft_reply (strip_quotes fm) m.llmOutcome
               | .error _ => ""),
             status := "pending", created_at := now, updated_at := now }]
       else st.1.drafts) := by
  obtain ⟨mid, gm, llm, cd, sv, mr⟩ := m
  simp only [processMsg, msgSaved]
  cases gm with
  | error e => simp
  | ok fm =>
      cases hb : build_mime (draft_reply (strip_quotes fm) llm) fm user with
      | error e => simp [hb]
      | ok env =>
          cases cd with
          | error e => simp [hb]
          | ok did =>
              cases sv with
              | false => simp [hb]
              | true => cases mr <;> simp [hb, save_draft]

/-- The message environment of the batch-isolation example: first message
fully succeeds. -/
def c2m1 : MsgEnv :=
  { msgId := "m1",
    getMessage := .ok { payload := { headers := [⟨"From", "alice@x"⟩], parts := .nil },
                        snippet := "hi one", threadId := none },
    llmOutcome := .ok "Reply one", createDraft := .ok "d1",
    saveOk := true, markReadOk := true }

/-- Second message of the example: the provider-draft creation fails
(simulated provider error mid-pipeline). -/
def c2m2 : MsgEnv :=
  { msgId := "m2",
    getMessage := .ok { payload := { headers := [⟨"From", "bob@x"⟩], parts := .nil },
                        snippet := "hi two", threadId := none },
    llmOutcome := .ok "Reply two", createDraft := .error "provider error",
    saveOk := true, markReadOk := true }

/-- Third message of the example: the generation call fails, so the canned
fallback is used, and the rest succeeds. -/
def c2m3 : MsgEnv :=
  { msgId := "m3",
    getMessage := .ok { payload := { headers := [⟨"From", "carol@x"⟩], parts := .nil },
                        snippet := "hi three", threadId := none },
    llmOutcome := .error "llm down", createDraft := .ok "d3",
    saveOk := true, markReadOk := true }

/-- C2: one cycle's resulting draft table is the starting table plus, in
batch order, one `pending` record for exactly the messages whose pipeline
reaches a committed `save_draft` — a failure inside one message's
processing (at any step from fetch through mark-as-read) never aborts the
cycle and never prevents the other messages' records.  In particular, in
the three-message batch where the second fails at draft creation and the
third has a failing generator, records exist for the first and third, and
both are marked read. -/
theorem poll_cycle_batch_isolation :
    (∀ user now db msgs,
      (poll_inbox user now db msgs).1.drafts.map recProj
        = db.drafts.map recProj ++ (msgs.filter (msgSaved user)).map (expectedProj user))
    ∧ (poll_inbox "me@x" 7 ⟨[], 1⟩ [c2m1, c2m2, c2m3]).1.drafts.map recProj
        = [("m1", "d1", "Reply one", "pending"),
           ("m3", "d3", canned_reply, "pending")]
    ∧ (poll_inbox "me@x" 7 ⟨[], 1⟩ [c2m1, c2m2, c2m3]).2 = ["m1", "m3"] := by
  refine ⟨fun user now db msgs => ?_, by decide, by decide⟩
  have key : ∀ (ms : List MsgEnv) (st : DraftDB × List String),
      (ms.foldl (processMsg user now) st).1.drafts.map recProj
        = st.1.drafts.map recProj ++ (ms.filter (msgSaved user)).map (expectedProj user) := by
    intro ms
    induction ms with
    | nil => intro st; simp
    | cons m rest ih =>
        intro st
        rw [List.foldl_cons, ih (processMsg user now st m), List.filter_cons]
        by_cases hs : msgSaved user m = true
        · rw [processMsg_drafts, if_pos hs]
          simp only [hs, if_pos, List.map_append, List.map_cons]
          rw [List.append_assoc]
          rfl
        · rw [processMsg_drafts, if_neg hs]
          simp [hs]
  exact key msgs (db, [])

end GmailAutoresponder
